import Mathlib

/-!
# WebAuthn demo server (`src/main.go`): the four HTTP handlers

The program keeps two pieces of mutable state, both local variables of `main`
captured by the four handler closures: the single user (`user`, a non-nil
pointer to a `User`) and the single session pointer (`ses`, initially nil).
Each handler makes one call into the go-webauthn library.  The library is not
part of the repository: its types are type parameters here and its four entry
points are the fields of `WebAuthn`, returning the raw Go result tuples
(pointers are `Option`, a nil `error` is `none`).

The library is taken to have no effect on the two variables: it reads the user
through the interface methods only.  The global `webAuthn` is taken to be
non-nil (`webauthn.New` is called once, on a constant configuration).  Requests
are served one after the other.

A handler run is modelled by explicit state passing.  The result of a run is an
`Outcome`: the state afterwards, what was written to the `http.ResponseWriter`,
the library call that was made (a ghost record of the call's arguments) and
whether the run ended in a run-time panic (nil pointer dereference) instead of
returning.  Logging (`log.Println`) has no effect on the state or the response
and is left out.
-/

namespace WebauthnDemo

/-- The `User` struct of `main.go`; `Cred` is the library's `webauthn.Credential`. -/
structure User (Cred : Type) where
  ID : List Nat
  Name : String
  DisplayName : String
  Credentials : List Cred
  deriving DecidableEq, Repr

/-- Method `WebAuthnID`. -/
def User.WebAuthnID {Cred : Type} (user : User Cred) : List Nat := user.ID

/-- Method `WebAuthnName`. -/
def User.WebAuthnName {Cred : Type} (user : User Cred) : String := user.Name

/-- Method `WebAuthnDisplayName`. -/
def User.WebAuthnDisplayName {Cred : Type} (user : User Cred) : String := user.DisplayName

/-- Method `WebAuthnIcon`. -/
def User.WebAuthnIcon {Cred : Type} (_user : User Cred) : String := ""

/-- Method `WebAuthnCredentials`. -/
def User.WebAuthnCredentials {Cred : Type} (user : User Cred) : List Cred := user.Credentials

/-- The variables captured by the handler closures: `user` (the pointer is never nil and never
reassigned, so the struct itself is stored) and `ses` (a `*webauthn.SessionData`, nil = `none`). -/
structure State (Cred Sess : Type) where
  user : User Cred
  ses : Option Sess
  deriving DecidableEq, Repr

/-- One write to the response body.  `creation o` is the JSON encoding of the
`*protocol.CredentialCreation` pointer `o` followed by a newline (`null` for a nil pointer),
`assertion o` the same for a `*protocol.CredentialAssertion`, `bytes b` the raw bytes `b`. -/
inductive Chunk (COpts AOpts : Type) where
  | creation (o : Option COpts)
  | assertion (o : Option AOpts)
  | bytes (b : String)
  deriving DecidableEq, Repr

/-- What a handler has done to its `http.ResponseWriter`: the header map, the status code once
the header has been written (`none` before), and the body chunks in the order written. -/
structure ResponseWriter (COpts AOpts : Type) where
  header : List (String × String)
  status : Option Nat
  body : List (Chunk COpts AOpts)
  deriving DecidableEq, Repr

/-- The writer net/http hands to a handler: nothing set, nothing written. -/
def ResponseWriter.fresh {COpts AOpts : Type} : ResponseWriter COpts AOpts :=
  { header := [], status := none, body := [] }

/-- `w.Header().Set(k, v)`: replaces the values of key `k`. -/
def ResponseWriter.HeaderSet {COpts AOpts : Type} (w : ResponseWriter COpts AOpts)
    (k v : String) : ResponseWriter COpts AOpts :=
  { w with header := (w.header.filter fun e => e.1 != k) ++ [(k, v)] }

/-- `w.WriteHeader(code)`: the first call fixes the status, later calls are ignored. -/
def ResponseWriter.WriteHeader {COpts AOpts : Type} (w : ResponseWriter COpts AOpts)
    (code : Nat) : ResponseWriter COpts AOpts :=
  match w.status with
  | none => { w with status := some code }
  | some _ => w

/-- `w.Write(chunk)`: writes the header with `http.StatusOK` if it was not written yet, then
appends to the body. -/
def ResponseWriter.Write {COpts AOpts : Type} (w : ResponseWriter COpts AOpts)
    (c : Chunk COpts AOpts) : ResponseWriter COpts AOpts :=
  let w1 := w.WriteHeader 200
  { w1 with body := w1.body ++ [c] }

/-- The status code the client receives when the handler returns: net/http sends
`http.StatusOK` when the handler never wrote the header. -/
def ResponseWriter.statusCode {COpts AOpts : Type} (w : ResponseWriter COpts AOpts) : Nat :=
  w.status.getD 200

/-- The go-webauthn entry points used by `main.go`, as the Go result tuples:
`BeginRegistration(user) (*protocol.CredentialCreation, *SessionData, error)`,
`FinishRegistration(user, session, r) (*Credential, error)`,
`BeginLogin(user) (*protocol.CredentialAssertion, *SessionData, error)`,
`FinishLogin(user, session, r) (*Credential, error)`. -/
structure WebAuthn (Cred Sess COpts AOpts Err Req : Type) where
  BeginRegistration : User Cred → Option COpts × Option Sess × Option Err
  FinishRegistration : User Cred → Sess → Req → Option Cred × Option Err
  BeginLogin : User Cred → Option AOpts × Option Sess × Option Err
  FinishLogin : User Cred → Sess → Req → Option Cred × Option Err

/-- Ghost record of a library call with its arguments. -/
inductive LibCall (Cred Sess Req : Type) where
  | BeginRegistration (user : User Cred)
  | FinishRegistration (user : User Cred) (session : Sess) (r : Req)
  | BeginLogin (user : User Cred)
  | FinishLogin (user : User Cred) (session : Sess) (r : Req)
  deriving DecidableEq, Repr

/-- Result of running a handler. `panicked = true`: the run was cut short by a nil pointer
dereference (net/http recovers the panic and drops the connection); `state` and `w` then hold
what had been done up to that point. -/
structure Outcome (Cred Sess COpts AOpts Req : Type) where
  state : State Cred Sess
  w : ResponseWriter COpts AOpts
  call : Option (LibCall Cred Sess Req)
  panicked : Bool
  deriving DecidableEq, Repr

section Handlers

variable {Cred Sess COpts AOpts Err Req : Type}

/-- Closure `beginRegistration` (main.go 73-79). The error is logged only: the session returned
is stored and the options are encoded whatever `err` is. -/
def beginRegistration (webAuthn : WebAuthn Cred Sess COpts AOpts Err Req)
    (s : State Cred Sess) (w : ResponseWriter COpts AOpts) (_r : Req) :
    Outcome Cred Sess COpts AOpts Req :=
  let w := w.HeaderSet "Access-Control-Allow-Origin" "*"
  match webAuthn.BeginRegistration s.user with
  | (options, session, _err) =>
    let s1 : State Cred Sess := { s with ses := session }
    let w := w.Write (Chunk.creation options)
    { state := s1, w := w, call := some (LibCall.BeginRegistration s.user), panicked := false }

/-- Closure `finishRegistration` (main.go 81-95). `*ses` is evaluated as an argument of the
library call, so a nil `ses` panics before the call is made; `*credential` is evaluated after
the error check. -/
def finishRegistration (webAuthn : WebAuthn Cred Sess COpts AOpts Err Req)
    (s : State Cred Sess) (w : ResponseWriter COpts AOpts) (r : Req) :
    Outcome Cred Sess COpts AOpts Req :=
  let w := w.HeaderSet "Access-Control-Allow-Origin" "*"
  match s.ses with
  | none => { state := s, w := w, call := none, panicked := true }
  | some session =>
    let call := some (LibCall.FinishRegistration s.user session r)
    match webAuthn.FinishRegistration s.user session r with
    | (_, some _err) => { state := s, w := w, call := call, panicked := false }
    | (none, none) => { state := s, w := w, call := call, panicked := true }
    | (some credential, none) =>
      let s1 : State Cred Sess :=
        { s with user := { s.user with Credentials := s.user.Credentials ++ [credential] } }
      let w := w.WriteHeader 200
      let w := w.Write (Chunk.bytes "\x7b\"verified\": true\x7d")
      { state := s1, w := w, call := call, panicked := false }

/-- Closure `beginLogin` (main.go 97-106). -/
def beginLogin (webAuthn : WebAuthn Cred Sess COpts AOpts Err Req)
    (s : State Cred Sess) (w : ResponseWriter COpts AOpts) (_r : Req) :
    Outcome Cred Sess COpts AOpts Req :=
  let w := w.HeaderSet "Access-Control-Allow-Origin" "*"
  let call := some (LibCall.BeginLogin s.user)
  match webAuthn.BeginLogin s.user with
  | (_, _, some _err) => { state := s, w := w, call := call, panicked := false }
  | (opts, session, none) =>
    let s1 : State Cred Sess := { s with ses := session }
    let w := w.Write (Chunk.assertion opts)
    { state := s1, w := w, call := call, panicked := false }

/-- Closure `finishLogin` (main.go 108-118). -/
def finishLogin (webAuthn : WebAuthn Cred Sess COpts AOpts Err Req)
    (s : State Cred Sess) (w : ResponseWriter COpts AOpts) (r : Req) :
    Outcome Cred Sess COpts AOpts Req :=
  let w := w.HeaderSet "Access-Control-Allow-Origin" "*"
  match s.ses with
  | none => { state := s, w := w, call := none, panicked := true }
  | some session =>
    let call := some (LibCall.FinishLogin s.user session r)
    match webAuthn.FinishLogin s.user session r with
    | (_, some _err) => { state := s, w := w, call := call, panicked := false }
    | (none, none) => { state := s, w := w, call := call, panicked := true }
    | (some crds, none) =>
      let s1 : State Cred Sess :=
        { s with user := { s.user with Credentials := s.user.Credentials ++ [crds] } }
      let w := w.WriteHeader 200
      let w := w.Write (Chunk.bytes "\x7b\"verified\": true\x7d")
      { state := s1, w := w, call := call, panicked := false }

/-- The state `main` sets up before serving (main.go 66-71). -/
def initState : State Cred Sess :=
  { user := { ID := [49, 50, 51, 52, 53, 54, 55, 56, 57, 48], Name := "test", DisplayName := "",
              Credentials := [] },
    ses := none }

/-- The routes registered with `http.HandleFunc` (main.go 121-124). -/
inductive Route where
  | start
  | finish
  | loginStart
  | loginFinish
  deriving DecidableEq, Repr

/-- One request served: the route hit, the request, and the behaviour of the library during
that request (the library draws fresh random challenges, so it differs between requests). -/
structure Served (Cred Sess COpts AOpts Err Req : Type) where
  webAuthn : WebAuthn Cred Sess COpts AOpts Err Req
  route : Route
  r : Req

/-- Dispatch of one request to its handler, with a fresh response writer. -/
def serve (c : Served Cred Sess COpts AOpts Err Req) (s : State Cred Sess) :
    Outcome Cred Sess COpts AOpts Req :=
  match c.route with
  | Route.start => beginRegistration c.webAuthn s ResponseWriter.fresh c.r
  | Route.finish => finishRegistration c.webAuthn s ResponseWriter.fresh c.r
  | Route.loginStart => beginLogin c.webAuthn s ResponseWriter.fresh c.r
  | Route.loginFinish => finishLogin c.webAuthn s ResponseWriter.fresh c.r

/-- The state after serving a sequence of requests one after the other. -/
def serveAll (s : State Cred Sess) : List (Served Cred Sess COpts AOpts Err Req) → State Cred Sess
  | [] => s
  | c :: cs => serveAll (serve c s).state cs

/-- Served in state `s`, the request `c` does not assign `ses`: it is a finish request, or a
begin-login request whose library call, made for the user of `s`, returns an error (the handler
returns at line 102, before line 104). -/
def Served.keepsSession (c : Served Cred Sess COpts AOpts Err Req) (s : State Cred Sess) : Prop :=
  c.route = Route.finish ∨ c.route = Route.loginFinish ∨
    (c.route = Route.loginStart ∧ (c.webAuthn.BeginLogin s.user).2.2 ≠ none)

/-- Served in state `s`, the request `c` assigns the session `sd` to `ses`: it is a
begin-registration request whose library call returns the session `sd` (line 77 stores it whatever
`err` is), or a begin-login request whose library call returns `sd` and no error (line 104). -/
def Served.storesSession (c : Served Cred Sess COpts AOpts Err Req) (s : State Cred Sess)
    (sd : Sess) : Prop :=
  (c.route = Route.start ∧ (c.webAuthn.BeginRegistration s.user).2.1 = some sd) ∨
    (c.route = Route.loginStart ∧ (c.webAuthn.BeginLogin s.user).2 = (some sd, none))

/-- No request of the sequence assigns `ses`, each request being taken in the state in which it
is served when the sequence is served from state `s`. -/
def keepsSessionAll (s : State Cred Sess) : List (Served Cred Sess COpts AOpts Err Req) → Prop
  | [] => True
  | c :: cs => c.keepsSession s ∧ keepsSessionAll (serve c s).state cs

end Handlers

/-! ## Concrete library behaviours, used to evaluate the handlers on explicit inputs

All library types are instantiated with `Nat`. -/

/-- A library whose four entry points succeed, issuing session `sess` and returning credential
`cred`; like go-webauthn, `BeginLogin` refuses a user without credentials. -/
def okLib (sess cred : Nat) : WebAuthn Nat Nat Nat Nat Nat Nat :=
  { BeginRegistration := fun _ => (some 0, some sess, none)
    FinishRegistration := fun _ _ _ => (some cred, none)
    BeginLogin := fun u =>
      if u.Credentials.isEmpty then (none, none, some 1) else (some 0, some sess, none)
    FinishLogin := fun _ _ _ => (some cred, none) }

/-- A library whose four entry points fail with error `1`, returning nil pointers. -/
def errLib : WebAuthn Nat Nat Nat Nat Nat Nat :=
  { BeginRegistration := fun _ => (none, none, some 1)
    FinishRegistration := fun _ _ _ => (none, some 1)
    BeginLogin := fun _ => (none, none, some 1)
    FinishLogin := fun _ _ _ => (none, some 1) }

/-- The state of the demo after one credential `cred` was registered in session `sess`. -/
def registered (sess cred : Nat) : State Nat Nat :=
  { user := { ID := [49, 50, 51, 52, 53, 54, 55, 56, 57, 48], Name := "test", DisplayName := "",
              Credentials := [cred] },
    ses := some sess }

/-! ## Theorems -/

section Theorems

variable {Cred Sess COpts AOpts Err Req : Type}

/-- The finish-registration handler never assigns `ses`. -/
theorem finishRegistration_ses (webAuthn : WebAuthn Cred Sess COpts AOpts Err Req)
    (s : State Cred Sess) (w : ResponseWriter COpts AOpts) (r : Req) :
    (finishRegistration webAuthn s w r).state.ses = s.ses := by
  unfold finishRegistration
  cases hs : s.ses with
  | none => simp [hs]
  | some session =>
    rcases hres : webAuthn.FinishRegistration s.user session r with ⟨c, e⟩
    cases e with
    | some e => simp [hres, hs]
    | none => cases c <;> simp [hres, hs]

/-- The finish-login handler never assigns `ses`. -/
theorem finishLogin_ses (webAuthn : WebAuthn Cred Sess COpts AOpts Err Req)
    (s : State Cred Sess) (w : ResponseWriter COpts AOpts) (r : Req) :
    (finishLogin webAuthn s w r).state.ses = s.ses := by
  unfold finishLogin
  cases hs : s.ses with
  | none => simp [hs]
  | some session =>
    rcases hres : webAuthn.FinishLogin s.user session r with ⟨c, e⟩
    cases e with
    | some e => simp [hres, hs]
    | none => cases c <;> simp [hres, hs]

/-- With a session stored, the finish-registration handler hands it to the library. -/
theorem finishRegistration_call (webAuthn : WebAuthn Cred Sess COpts AOpts Err Req)
    (s : State Cred Sess) (w : ResponseWriter COpts AOpts) (r : Req) (session : Sess)
    (hs : s.ses = some session) :
    (finishRegistration webAuthn s w r).call
      = some (LibCall.FinishRegistration s.user session r) := by
  unfold finishRegistration
  rcases hres : webAuthn.FinishRegistration s.user session r with ⟨c, e⟩
  cases e with
  | some e => simp [hres, hs]
  | none => cases c <;> simp [hres, hs]

/-- With a session stored, the finish-login handler hands it to the library. -/
theorem finishLogin_call (webAuthn : WebAuthn Cred Sess COpts AOpts Err Req)
    (s : State Cred Sess) (w : ResponseWriter COpts AOpts) (r : Req) (session : Sess)
    (hs : s.ses = some session) :
    (finishLogin webAuthn s w r).call = some (LibCall.FinishLogin s.user session r) := by
  unfold finishLogin
  rcases hres : webAuthn.FinishLogin s.user session r with ⟨c, e⟩
  cases e with
  | some e => simp [hres, hs]
  | none => cases c <;> simp [hres, hs]

/-- Serving a request that does not assign `ses` leaves `ses` as it was. -/
theorem serve_keepsSession (c : Served Cred Sess COpts AOpts Err Req) (s : State Cred Sess)
    (hc : c.keepsSession s) : (serve c s).state.ses = s.ses := by
  rcases hc with h | h | ⟨h, he⟩
  · simp only [serve, h]
    exact finishRegistration_ses _ _ _ _
  · simp only [serve, h]
    exact finishLogin_ses _ _ _ _
  · simp only [serve, h]
    unfold beginLogin
    rcases hres : c.webAuthn.BeginLogin s.user with ⟨o, ss, e⟩
    rw [hres] at he
    cases e with
    | none => exact absurd rfl he
    | some e => simp

/-- Serving a request that assigns `sd` to `ses` leaves `ses = some sd`. -/
theorem serve_storesSession (c : Served Cred Sess COpts AOpts Err Req) (s : State Cred Sess)
    (sd : Sess) (hc : c.storesSession s sd) : (serve c s).state.ses = some sd := by
  rcases hc with ⟨h, hres⟩ | ⟨h, hres⟩
  · simp only [serve, h]
    unfold beginRegistration
    rcases hb : c.webAuthn.BeginRegistration s.user with ⟨o, ss, e⟩
    rw [hb] at hres
    simp at hres
    simp [hres]
  · simp only [serve, h]
    unfold beginLogin
    rcases hb : c.webAuthn.BeginLogin s.user with ⟨o, ss, e⟩
    rw [hb] at hres
    simp at hres
    simp [hres.1, hres.2]

/-- Serving a sequence of requests none of which assigns `ses` leaves `ses` as it was. -/
theorem serveAll_keepsSession (cs : List (Served Cred Sess COpts AOpts Err Req))
    (s : State Cred Sess) (hcs : keepsSessionAll s cs) : (serveAll s cs).ses = s.ses := by
  induction cs generalizing s with
  | nil => rfl
  | cons c cs ih =>
    simp only [serveAll]
    rw [ih (serve c s).state hcs.2]
    exact serve_keepsSession c s hcs.1

/-- Serving a concatenation is serving the first part, then the second. -/
theorem serveAll_append (cs ds : List (Served Cred Sess COpts AOpts Err Req))
    (s : State Cred Sess) : serveAll s (cs ++ ds) = serveAll (serveAll s cs) ds := by
  induction cs generalizing s with
  | nil => rfl
  | cons c cs ih =>
    simp only [List.cons_append, serveAll]
    exact ih (serve c s).state

/-- C1: when a session is stored (so the library call is made) and the library call of the
finish-registration handler, respectively of the finish-login handler, returns an error, the
handler returns normally and the credential list of the user afterwards is the list before. -/
theorem finish_error_keeps_credentials (webAuthn : WebAuthn Cred Sess COpts AOpts Err Req)
    (s : State Cred Sess) (w : ResponseWriter COpts AOpts) (r : Req) (session : Sess)
    (hs : s.ses = some session) :
    ((webAuthn.FinishRegistration s.user session r).2 ≠ none →
      (finishRegistration webAuthn s w r).panicked = false ∧
      (finishRegistration webAuthn s w r).state.user.Credentials = s.user.Credentials) ∧
    ((webAuthn.FinishLogin s.user session r).2 ≠ none →
      (finishLogin webAuthn s w r).panicked = false ∧
      (finishLogin webAuthn s w r).state.user.Credentials = s.user.Credentials) := by
  constructor
  · intro he
    unfold finishRegistration
    simp only [hs]
    rcases hres : webAuthn.FinishRegistration s.user session r with ⟨c, e⟩
    rw [hres] at he
    cases e with
    | none => exact absurd rfl he
    | some e => simp
  · intro he
    unfold finishLogin
    simp only [hs]
    rcases hres : webAuthn.FinishLogin s.user session r with ⟨c, e⟩
    rw [hres] at he
    cases e with
    | none => exact absurd rfl he
    | some e => simp

/-- Witness of C1: a registered user with stored session `5` and a library that fails; the
finish-login handler returns and the one credential `7` is still the whole list. -/
theorem finish_error_keeps_credentials_witness :
    (finishLogin errLib (registered 5 7) ResponseWriter.fresh 0).panicked = false ∧
    (finishLogin errLib (registered 5 7) ResponseWriter.fresh 0).state.user.Credentials
      = (registered 5 7).user.Credentials :=
  (finish_error_keeps_credentials errLib (registered 5 7) ResponseWriter.fresh 0 5 rfl).2
    (by decide)

/-- C2: when a session is stored and the library's FinishRegistration returns credential `c`
without error, the credential list after the finish-registration handler is the list before with
`c` appended at the end; for a user without credentials it is exactly `[c]`. -/
theorem finishRegistration_appends (webAuthn : WebAuthn Cred Sess COpts AOpts Err Req)
    (s : State Cred Sess) (w : ResponseWriter COpts AOpts) (r : Req) (session : Sess) (c : Cred)
    (hs : s.ses = some session)
    (hok : webAuthn.FinishRegistration s.user session r = (some c, none)) :
    (finishRegistration webAuthn s w r).panicked = false ∧
    (finishRegistration webAuthn s w r).state.user.Credentials = s.user.Credentials ++ [c] ∧
    (s.user.Credentials = [] →
      (finishRegistration webAuthn s w r).state.user.Credentials = [c]) := by
  have h : (finishRegistration webAuthn s w r).panicked = false ∧
      (finishRegistration webAuthn s w r).state.user.Credentials = s.user.Credentials ++ [c] := by
    unfold finishRegistration
    simp [hs, hok]
  refine ⟨h.1, h.2, ?_⟩
  intro hnil
  rw [h.2, hnil]
  rfl

/-- Witness of C2: the first registration in the demo, after a begin that stored session `5`. -/
theorem finishRegistration_appends_witness :
    (finishRegistration (okLib 5 7) (beginRegistration (okLib 5 7) initState
        ResponseWriter.fresh 0).state ResponseWriter.fresh 0).state.user.Credentials = [7] :=
  (finishRegistration_appends (okLib 5 7)
    (beginRegistration (okLib 5 7) initState ResponseWriter.fresh 0).state
    ResponseWriter.fresh 0 5 7 rfl rfl).2.2 rfl

/-- C4: for the finish-registration and the finish-login handler, run on a fresh response writer
with a session stored (so the library call is made): the handler writes the 18 bytes
`\x7b"verified": true\x7d` as the whole body, with status 200, exactly when the library call
returned a credential and no error; when the call returned an error nothing is written to the body
and the header is not written; and in the one remaining case, a nil credential with a nil error,
the handler panics with nothing written. -/
theorem verified_iff_no_error (webAuthn : WebAuthn Cred Sess COpts AOpts Err Req)
    (s : State Cred Sess) (r : Req) (session : Sess)
    (hs : s.ses = some session) :
    ((((finishRegistration webAuthn s ResponseWriter.fresh r).w.body
          = [Chunk.bytes "\x7b\"verified\": true\x7d"] ∧
        (finishRegistration webAuthn s ResponseWriter.fresh r).w.status = some 200) ↔
        ∃ c : Cred, webAuthn.FinishRegistration s.user session r = (some c, none)) ∧
      ((webAuthn.FinishRegistration s.user session r).2 ≠ none →
        (finishRegistration webAuthn s ResponseWriter.fresh r).w.body = [] ∧
        (finishRegistration webAuthn s ResponseWriter.fresh r).w.status = none) ∧
      (webAuthn.FinishRegistration s.user session r = (none, none) →
        (finishRegistration webAuthn s ResponseWriter.fresh r).w.body = [] ∧
        (finishRegistration webAuthn s ResponseWriter.fresh r).panicked = true)) ∧
    ((((finishLogin webAuthn s ResponseWriter.fresh r).w.body
          = [Chunk.bytes "\x7b\"verified\": true\x7d"] ∧
        (finishLogin webAuthn s ResponseWriter.fresh r).w.status = some 200) ↔
        ∃ c : Cred, webAuthn.FinishLogin s.user session r = (some c, none)) ∧
      ((webAuthn.FinishLogin s.user session r).2 ≠ none →
        (finishLogin webAuthn s ResponseWriter.fresh r).w.body = [] ∧
        (finishLogin webAuthn s ResponseWriter.fresh r).w.status = none) ∧
      (webAuthn.FinishLogin s.user session r = (none, none) →
        (finishLogin webAuthn s ResponseWriter.fresh r).w.body = [] ∧
        (finishLogin webAuthn s ResponseWriter.fresh r).panicked = true)) := by
  constructor
  · unfold finishRegistration
    simp only [hs]
    rcases hres : webAuthn.FinishRegistration s.user session r with ⟨c, e⟩
    cases e with
    | some e =>
      simp [ResponseWriter.HeaderSet, ResponseWriter.fresh]
    | none =>
      cases c with
      | none => simp [ResponseWriter.HeaderSet, ResponseWriter.fresh]
      | some c =>
        simp [ResponseWriter.HeaderSet, ResponseWriter.fresh, ResponseWriter.Write,
          ResponseWriter.WriteHeader]
  · unfold finishLogin
    simp only [hs]
    rcases hres : webAuthn.FinishLogin s.user session r with ⟨c, e⟩
    cases e with
    | some e =>
      simp [ResponseWriter.HeaderSet, ResponseWriter.fresh]
    | none =>
      cases c with
      | none => simp [ResponseWriter.HeaderSet, ResponseWriter.fresh]
      | some c =>
        simp [ResponseWriter.HeaderSet, ResponseWriter.fresh, ResponseWriter.Write,
          ResponseWriter.WriteHeader]

/-- Witness of C4: a registered user with stored session `5` and a library that returns
credential `7` without error; the finish-login handler writes the verified body with status 200. -/
theorem verified_iff_no_error_witness :
    (finishLogin (okLib 5 7) (registered 5 7) ResponseWriter.fresh 0).w.body
        = [Chunk.bytes "\x7b\"verified\": true\x7d"] ∧
      (finishLogin (okLib 5 7) (registered 5 7) ResponseWriter.fresh 0).w.status = some 200 :=
  (verified_iff_no_error (okLib 5 7) (registered 5 7) 0 5 rfl).2.1.mpr ⟨7, rfl⟩

/-- C6: if the library's BeginLogin returns an error for every user without credentials, then
the begin-login handler run on a fresh response writer while the credential list is empty returns
with the stored session as it was before, no body written (no options payload), the header not
written, and the credential list unchanged. -/
theorem beginLogin_no_credentials (webAuthn : WebAuthn Cred Sess COpts AOpts Err Req)
    (s : State Cred Sess) (r : Req)
    (hlib : ∀ u : User Cred, u.Credentials = [] → (webAuthn.BeginLogin u).2.2 ≠ none)
    (hc : s.user.Credentials = []) :
    (beginLogin webAuthn s ResponseWriter.fresh r).panicked = false ∧
    (beginLogin webAuthn s ResponseWriter.fresh r).state.ses = s.ses ∧
    (beginLogin webAuthn s ResponseWriter.fresh r).w.body = [] ∧
    (beginLogin webAuthn s ResponseWriter.fresh r).w.status = none ∧
    (beginLogin webAuthn s ResponseWriter.fresh r).state.user.Credentials
      = s.user.Credentials := by
  have he := hlib s.user hc
  unfold beginLogin
  rcases hres : webAuthn.BeginLogin s.user with ⟨o, ss, e⟩
  rw [hres] at he
  cases e with
  | none => exact absurd rfl he
  | some e => simp [ResponseWriter.HeaderSet, ResponseWriter.fresh]

/-- Witness of C6: begin-login in the initial state of the demo. -/
theorem beginLogin_no_credentials_witness :
    (beginLogin (okLib 5 7) initState ResponseWriter.fresh 0).state.ses = none ∧
    (beginLogin (okLib 5 7) initState ResponseWriter.fresh 0).w.body = [] :=
  have h := beginLogin_no_credentials (okLib 5 7) initState 0
    (fun u hu => by simp [okLib, hu]) rfl
  ⟨h.2.1, h.2.2.1⟩

/-- C9: for each of the four handlers, every state, response writer, request and library
behaviour, the credential list before the handler is an initial segment of the list after it, and
the two begin handlers leave the list unchanged. -/
theorem credentials_only_appended (webAuthn : WebAuthn Cred Sess COpts AOpts Err Req)
    (s : State Cred Sess) (w : ResponseWriter COpts AOpts) (r : Req) :
    (beginRegistration webAuthn s w r).state.user.Credentials = s.user.Credentials ∧
    (beginLogin webAuthn s w r).state.user.Credentials = s.user.Credentials ∧
    s.user.Credentials <+: (beginRegistration webAuthn s w r).state.user.Credentials ∧
    s.user.Credentials <+: (finishRegistration webAuthn s w r).state.user.Credentials ∧
    s.user.Credentials <+: (beginLogin webAuthn s w r).state.user.Credentials ∧
    s.user.Credentials <+: (finishLogin webAuthn s w r).state.user.Credentials := by
  have hbr : (beginRegistration webAuthn s w r).state.user.Credentials
      = s.user.Credentials := by
    unfold beginRegistration
    rcases webAuthn.BeginRegistration s.user with ⟨o, ss, e⟩
    rfl
  have hbl : (beginLogin webAuthn s w r).state.user.Credentials = s.user.Credentials := by
    unfold beginLogin
    rcases webAuthn.BeginLogin s.user with ⟨o, ss, e⟩
    cases e <;> rfl
  refine ⟨hbr, hbl, ?_, ?_, ?_, ?_⟩
  · rw [hbr]
  · unfold finishRegistration
    cases hs : s.ses with
    | none => simp
    | some session =>
      rcases hres : webAuthn.FinishRegistration s.user session r with ⟨c, e⟩
      cases e with
      | some e => simp [hres]
      | none => cases c <;> simp [hres]
  · rw [hbl]
  · unfold finishLogin
    cases hs : s.ses with
    | none => simp
    | some session =>
      rcases hres : webAuthn.FinishLogin s.user session r with ⟨c, e⟩
      cases e with
      | some e => simp [hres]
      | none => cases c <;> simp [hres]

/-- C5, as stated, fails: with a session stored and a library whose FinishRegistration returns
an error, the finish-registration handler returns without writing the header, so the status sent
is 200, which is not a 4xx code. -/
theorem error_status_is_not_4xx :
    (errLib.FinishRegistration (registered 5 7).user 5 0).2 ≠ none ∧
    (finishRegistration errLib (registered 5 7) ResponseWriter.fresh 0).panicked = false ∧
    (finishRegistration errLib (registered 5 7) ResponseWriter.fresh 0).w.statusCode = 200 ∧
    ¬ (400 ≤ (finishRegistration errLib (registered 5 7) ResponseWriter.fresh 0).w.statusCode ∧
        (finishRegistration errLib (registered 5 7) ResponseWriter.fresh 0).w.statusCode < 500) := by
  decide

/-- C5, amended: whenever the library call of the finish-registration, finish-login or
begin-login handler returns an error, the handler, run on a fresh response writer, returns
without writing the header or the body, so the response has the default status 200 and an
empty body. -/
theorem error_status_is_default (webAuthn : WebAuthn Cred Sess COpts AOpts Err Req)
    (s : State Cred Sess) (r : Req) :
    (∀ session : Sess, s.ses = some session →
      (webAuthn.FinishRegistration s.user session r).2 ≠ none →
      (finishRegistration webAuthn s ResponseWriter.fresh r).w.status = none ∧
      (finishRegistration webAuthn s ResponseWriter.fresh r).w.body = [] ∧
      (finishRegistration webAuthn s ResponseWriter.fresh r).w.statusCode = 200) ∧
    (∀ session : Sess, s.ses = some session →
      (webAuthn.FinishLogin s.user session r).2 ≠ none →
      (finishLogin webAuthn s ResponseWriter.fresh r).w.status = none ∧
      (finishLogin webAuthn s ResponseWriter.fresh r).w.body = [] ∧
      (finishLogin webAuthn s ResponseWriter.fresh r).w.statusCode = 200) ∧
    ((webAuthn.BeginLogin s.user).2.2 ≠ none →
      (beginLogin webAuthn s ResponseWriter.fresh r).w.status = none ∧
      (beginLogin webAuthn s ResponseWriter.fresh r).w.body = [] ∧
      (beginLogin webAuthn s ResponseWriter.fresh r).w.statusCode = 200) := by
  refine ⟨?_, ?_, ?_⟩
  · intro session hs he
    unfold finishRegistration
    rcases hres : webAuthn.FinishRegistration s.user session r with ⟨c, e⟩
    rw [hres] at he
    cases e with
    | none => exact absurd rfl he
    | some e =>
      simp [hs, hres, ResponseWriter.HeaderSet, ResponseWriter.fresh, ResponseWriter.statusCode]
  · intro session hs he
    unfold finishLogin
    rcases hres : webAuthn.FinishLogin s.user session r with ⟨c, e⟩
    rw [hres] at he
    cases e with
    | none => exact absurd rfl he
    | some e =>
      simp [hs, hres, ResponseWriter.HeaderSet, ResponseWriter.fresh, ResponseWriter.statusCode]
  · intro he
    unfold beginLogin
    rcases hres : webAuthn.BeginLogin s.user with ⟨o, ss, e⟩
    rw [hres] at he
    cases e with
    | none => exact absurd rfl he
    | some e =>
      simp [ResponseWriter.HeaderSet, ResponseWriter.fresh, ResponseWriter.statusCode]

/-- Witness of amended C5: a failing finish-login with session `5` stored. -/
theorem error_status_is_default_witness :
    (finishLogin errLib (registered 5 7) ResponseWriter.fresh 0).w.status = none ∧
    (finishLogin errLib (registered 5 7) ResponseWriter.fresh 0).w.body = [] ∧
    (finishLogin errLib (registered 5 7) ResponseWriter.fresh 0).w.statusCode = 200 :=
  (error_status_is_default errLib (registered 5 7) 0).2.1 5 rfl (by decide)

/-- C7, as stated, fails: a successful begin-registration stores session `1`, a successful
begin-login handled next stores session `2` in the same variable, and the finish-registration
call that follows hands session `2`, not session `1`, to the library. -/
theorem session_overwritten_by_other_begin :
    ((okLib 1 8).BeginRegistration (registered 5 7).user).2 = (some 1, none) ∧
    (serve (Served.mk (okLib 1 8) Route.start 0) (registered 5 7)).state.ses = some 1 ∧
    (serve (Served.mk (okLib 1 8) Route.finish 0)
        (serveAll (serve (Served.mk (okLib 1 8) Route.start 0) (registered 5 7)).state
          [Served.mk (okLib 2 8) Route.loginStart 0])).call
      = some (LibCall.FinishRegistration (registered 5 7).user 2 0) ∧
    (serve (Served.mk (okLib 1 8) Route.finish 0)
        (serveAll (serve (Served.mk (okLib 1 8) Route.start 0) (registered 5 7)).state
          [Served.mk (okLib 2 8) Route.loginStart 0])).call
      ≠ some (LibCall.FinishRegistration (registered 5 7).user 1 0) := by
  decide

/-- C7, amended: there is one session variable, and a finish call is handed the session
stored by the latest begin call that stored one. Whatever requests `before` were served first
(other begin calls included), if the begin request `cb` then stores session `sd` (a
begin-registration whose library call returned `sd`, or a begin-login whose library call returned
`sd` without error) and every request of `mid`, served after it, is a finish request or a
begin-login request whose library call, for the user at that moment, failed, then a following
finish-registration call passes `sd` to the library's FinishRegistration and a following
finish-login call passes `sd` to the library's FinishLogin. So a begin call handled in between
replaces the session of an earlier begin, of either ceremony. -/
theorem session_is_latest_stored (s0 : State Cred Sess)
    (before mid : List (Served Cred Sess COpts AOpts Err Req))
    (cb cf : Served Cred Sess COpts AOpts Err Req) (sd : Sess)
    (hb : cb.storesSession (serveAll s0 before) sd)
    (hmid : keepsSessionAll (serve cb (serveAll s0 before)).state mid) :
    (serveAll s0 (before ++ cb :: mid)).ses = some sd ∧
    (cf.route = Route.finish →
      (serve cf (serveAll s0 (before ++ cb :: mid))).call
        = some (LibCall.FinishRegistration (serveAll s0 (before ++ cb :: mid)).user sd cf.r)) ∧
    (cf.route = Route.loginFinish →
      (serve cf (serveAll s0 (before ++ cb :: mid))).call
        = some (LibCall.FinishLogin (serveAll s0 (before ++ cb :: mid)).user sd cf.r)) := by
  have h : (serveAll s0 (before ++ cb :: mid)).ses = some sd := by
    rw [serveAll_append]
    simp only [serveAll]
    rw [serveAll_keepsSession mid _ hmid]
    exact serve_storesSession cb _ sd hb
  refine ⟨h, ?_, ?_⟩
  · intro hf
    simp only [serve, hf]
    exact finishRegistration_call _ _ _ _ _ h
  · intro hf
    simp only [serve, hf]
    exact finishLogin_call _ _ _ _ _ h

/-- Witness of amended C7. First, from the initial state of the demo: begin-registration stores
session `1`; the begin-login served next fails, the user having no credential yet (its library
would issue session `2` to a user with credentials), then a finish-login fails in the library; the
finish-registration call that follows passes session `1`. Second, for a user with a credential:
after a begin-registration that stored session `1`, a successful begin-login stores session `2`,
and the finish-registration call that follows passes session `2`. -/
theorem session_is_latest_stored_witness :
    (serve (Served.mk (okLib 1 8) Route.finish 0)
        (serveAll (initState : State Nat Nat)
          ([] ++ Served.mk (okLib 1 8) Route.start 0 ::
            [Served.mk (okLib 2 8) Route.loginStart 0,
              Served.mk errLib Route.loginFinish 0]))).call
      = some (LibCall.FinishRegistration (initState : State Nat Nat).user 1 0) ∧
    (serve (Served.mk (okLib 1 8) Route.finish 0)
        (serveAll (registered 5 7)
          ([Served.mk (okLib 1 8) Route.start 0] ++
            Served.mk (okLib 2 8) Route.loginStart 0 :: []))).call
      = some (LibCall.FinishRegistration (registered 5 7).user 2 0) :=
  ⟨(session_is_latest_stored (initState : State Nat Nat) []
      [Served.mk (okLib 2 8) Route.loginStart 0, Served.mk errLib Route.loginFinish 0]
      (Served.mk (okLib 1 8) Route.start 0) (Served.mk (okLib 1 8) Route.finish 0) 1
      (Or.inl ⟨rfl, rfl⟩)
      ⟨Or.inr (Or.inr ⟨rfl, by decide⟩), Or.inr (Or.inl rfl), trivial⟩).2.1 rfl,
    (session_is_latest_stored (registered 5 7) [Served.mk (okLib 1 8) Route.start 0] []
      (Served.mk (okLib 2 8) Route.loginStart 0) (Served.mk (okLib 1 8) Route.finish 0) 2
      (Or.inr ⟨rfl, rfl⟩) trivial).2.1 rfl⟩

/-- C8, as stated, fails: after a finish-registration call whose library call succeeded, session
`5` is still stored, and a second finish-registration call made without a new begin hands
session `5` to the library again. -/
theorem session_survives_finish :
    (okLib 5 7).FinishRegistration
        (beginRegistration (okLib 5 7) initState ResponseWriter.fresh 0).state.user 5 0
      = (some 7, none) ∧
    (finishRegistration (okLib 5 7)
        (beginRegistration (okLib 5 7) initState ResponseWriter.fresh 0).state
        ResponseWriter.fresh 0).call
      = some (LibCall.FinishRegistration (initState : State Nat Nat).user 5 0) ∧
    (finishRegistration (okLib 5 7)
        (beginRegistration (okLib 5 7) initState ResponseWriter.fresh 0).state
        ResponseWriter.fresh 0).state.ses ≠ none ∧
    (finishRegistration (okLib 5 7)
        (finishRegistration (okLib 5 7)
          (beginRegistration (okLib 5 7) initState ResponseWriter.fresh 0).state
          ResponseWriter.fresh 0).state
        ResponseWriter.fresh 0).call
      = some (LibCall.FinishRegistration (registered 5 7).user 5 0) := by
  decide

/-- C8, amended: a finish-registration or finish-login handler call, whatever its library call
returned, leaves the stored session as it was, and a second finish call of the same kind made
right after it (no begin in between) hands that same session to the library again. -/
theorem finish_keeps_session (webAuthn webAuthn2 : WebAuthn Cred Sess COpts AOpts Err Req)
    (s : State Cred Sess) (w w2 : ResponseWriter COpts AOpts) (r r2 : Req) :
    (finishRegistration webAuthn s w r).state.ses = s.ses ∧
    (finishLogin webAuthn s w r).state.ses = s.ses ∧
    (∀ session : Sess, s.ses = some session →
      (finishRegistration webAuthn2 (finishRegistration webAuthn s w r).state w2 r2).call
        = some (LibCall.FinishRegistration (finishRegistration webAuthn s w r).state.user
            session r2) ∧
      (finishLogin webAuthn2 (finishLogin webAuthn s w r).state w2 r2).call
        = some (LibCall.FinishLogin (finishLogin webAuthn s w r).state.user session r2)) := by
  refine ⟨finishRegistration_ses webAuthn s w r, finishLogin_ses webAuthn s w r, ?_⟩
  intro session hs
  constructor
  · apply finishRegistration_call
    rw [finishRegistration_ses, hs]
  · apply finishLogin_call
    rw [finishLogin_ses, hs]

/-- Witness of amended C8: two finish-login calls in a row with session `5` stored. -/
theorem finish_keeps_session_witness :
    (registered 5 7).ses = some 5 ∧
    (finishLogin (okLib 5 7) (finishLogin (okLib 5 7) (registered 5 7)
        ResponseWriter.fresh 0).state ResponseWriter.fresh 1).call
      = some (LibCall.FinishLogin (finishLogin (okLib 5 7) (registered 5 7)
          ResponseWriter.fresh 0).state.user 5 1) :=
  ⟨rfl, ((finish_keeps_session (okLib 5 7) (okLib 5 7) (registered 5 7)
    ResponseWriter.fresh ResponseWriter.fresh 0 1).2.2 5 rfl).2⟩

/-- C3, the code at the failing input: a user owning the one credential `7`, with session `5`
stored by a begin-login; the library's FinishLogin succeeds and returns credential `7`. The
finish-login handler appends it, so the user owns two entries afterwards. -/
theorem finishLogin_adds_credential :
    (registered 5 7).user.Credentials.length = 1 ∧
    (okLib 5 7).FinishLogin (registered 5 7).user 5 0 = (some 7, none) ∧
    (finishLogin (okLib 5 7) (registered 5 7) ResponseWriter.fresh 0).state.user.Credentials
      = [7, 7] ∧
    (finishLogin (okLib 5 7) (registered 5 7)
      ResponseWriter.fresh 0).state.user.Credentials.length = 2 := by
  decide

/-- C10, the code at the failing inputs: in the initial state, and in the state left by a
begin-registration whose library call failed, `ses` is nil and the finish-registration handler
ends in a nil-dereference panic before the library is called; no credential is appended and
nothing is written to the body. -/
theorem finishRegistration_nil_session_panics :
    (finishRegistration (okLib 5 7) initState ResponseWriter.fresh 0).panicked = true ∧
    (finishRegistration (okLib 5 7) initState ResponseWriter.fresh 0).call = none ∧
    (finishRegistration (okLib 5 7) initState ResponseWriter.fresh 0).state.user.Credentials
      = [] ∧
    (finishRegistration (okLib 5 7) initState ResponseWriter.fresh 0).w.body = [] ∧
    (beginRegistration errLib (registered 5 7) ResponseWriter.fresh 0).state.ses = none ∧
    (finishRegistration (okLib 5 7)
      (beginRegistration errLib (registered 5 7) ResponseWriter.fresh 0).state
      ResponseWriter.fresh 0).panicked = true := by
  decide

end Theorems

end WebauthnDemo
